import Mathlib

/-
Shallow embedding of the ts_container frame feeder (src/main.cpp and the
unnamed ts_container source src/unnamed/part_000).

The repository holds two variants of the feeder:
  * src/main.cpp            — feed_frames sets PTS/DTS/duration on each buffer
                              from frame_counter, breaks on open/read failure,
                              paces by incrementally accumulating next_frame_time.
  * src/unnamed/part_000    — feed_frames skips non-I-frames, attaches only the
                              file index (GST_BUFFER_OFFSET), pushes buffers with
                              no PTS set (custom PTS code is commented out; the
                              appsrc is configured with do-timestamp), retries on
                              open/read failure, and paces from a fixed anchor
                              (start_time + frame_counter * frame_duration) with
                              a behind-schedule warning.
Definitions below are translated from those sources; time is modelled in
nanoseconds (GStreamer clock) as Nat, wall-clock instants as Nat.
-/

/-- GST_SECOND: one second in GStreamer clock units (nanoseconds). -/
def GST_SECOND : Nat := 1000000000

/-- gst_util_uint64_scale val num denom: full-precision integer scaling
val * num / denom with truncation (the GStreamer helper computes this with a
128-bit intermediate, so no overflow; here modelled on Nat directly). -/
def gst_util_uint64_scale (val num denom : Nat) : Nat :=
  val * num / denom

/-- PTS assigned by src/main.cpp feed_frames (line 109):
gst_util_uint64_scale(frame_counter, GST_SECOND, TARGET_FPS). -/
def mainPts (F n : Nat) : Nat := gst_util_uint64_scale n GST_SECOND F

/-- Duration assigned by src/main.cpp feed_frames (line 112):
gst_util_uint64_scale(1, GST_SECOND, TARGET_FPS). -/
def mainDuration (F : Nat) : Nat := gst_util_uint64_scale 1 GST_SECOND F

/-- 90 kHz conversion used by video_probe (part_000 line 154):
gst_util_uint64_scale(pts, 90000, GST_SECOND). -/
def pts90k (p : Nat) : Nat := gst_util_uint64_scale p 90000 GST_SECOND

/-- Scheduler counters owned by the feeder loop (globals frame_counter and
current_index in both sources). -/
structure FeedState where
  frame_counter : Nat
  current_index : Nat
deriving DecidableEq

/-- A GStreamer buffer as the feeder hands it to appsrc: the timestamp fields
(GST_CLOCK_TIME_NONE modelled as none), GST_BUFFER_OFFSET when set, payload
size. -/
structure PushedBuffer where
  pts : Option Nat
  dts : Option Nat
  duration : Option Nat
  offset : Option Nat
  size : Nat
deriving DecidableEq

/-- Environment for one loop iteration: the outcomes of the filesystem and
pipeline interactions the body performs, in program order. `present` and
`fsize` are what fs::exists / fs::file_size observe at the is_iframe call. -/
structure FrameEnv where
  ready : Bool
  present : Bool
  fsize : Nat
  openOk : Bool
  readOk : Bool
  mapOk : Bool
  pushOk : Bool
deriving DecidableEq

/-- IFRAME_MIN_SIZE = 30 * 1024 (part_000 line 83). -/
def IFRAME_MIN_SIZE : Nat := 30 * 1024

/-- is_iframe (part_000 lines 85-92): exists and file_size >= IFRAME_MIN_SIZE;
any filesystem error (including disappearance) yields false. -/
def is_iframe (present : Bool) (fsize : Nat) : Bool :=
  if ¬ present then false else decide (IFRAME_MIN_SIZE ≤ fsize)

/-- How one iteration of a feeder loop body ends. The retry/fatal split
mirrors `continue` versus `break` in the two sources. -/
inductive StepOutcome
  | notReady
  | skipped
  | retryOpen
  | retryRead
  | fatalOpen
  | fatalRead
  | fatalMap
  | fatalPush
  | emitted
deriving DecidableEq

/-- Whether the loop keeps running after an iteration with this outcome:
true for `continue` (and a successful push), false for `break`. -/
def outcomeContinues : StepOutcome → Bool
  | .notReady => true
  | .skipped => true
  | .retryOpen => true
  | .retryRead => true
  | .fatalOpen => false
  | .fatalRead => false
  | .fatalMap => false
  | .fatalPush => false
  | .emitted => true

/-- Result of one loop iteration: outcome, updated counters, and the buffer
successfully handed to appsrc (none when nothing was pushed or the push was
rejected). -/
structure StepResult where
  outcome : StepOutcome
  state : FeedState
  pushed : Option PushedBuffer
deriving DecidableEq

/-- One iteration of feed_frames in src/unnamed/part_000 (lines 252-347),
after the pacing prologue: readiness check (continue on not ready), I-frame
skip (current_index++ and continue), open/read failure (continue, same
index), buffer map failure (break), push (break on rejection), then
frame_counter++ and current_index++.  The pushed buffer carries no
PTS/DTS/duration (gst_buffer_new_allocate leaves them GST_CLOCK_TIME_NONE and
the custom PTS block at lines 316-320 is commented out); only
GST_BUFFER_OFFSET is set, to current_index (line 323). -/
def feed_frames_ts_step (s : FeedState) (e : FrameEnv) : StepResult :=
  if ¬ e.ready then ⟨.notReady, s, none⟩
  else if ¬ is_iframe e.present e.fsize then
    ⟨.skipped, ⟨s.frame_counter, s.current_index + 1⟩, none⟩
  else if ¬ e.openOk then ⟨.retryOpen, s, none⟩
  else if ¬ e.readOk then ⟨.retryRead, s, none⟩
  else if ¬ e.mapOk then ⟨.fatalMap, s, none⟩
  else if ¬ e.pushOk then ⟨.fatalPush, s, none⟩
  else
    ⟨.emitted, ⟨s.frame_counter + 1, s.current_index + 1⟩,
      some ⟨none, none, none, some s.current_index, e.fsize⟩⟩

/-- One iteration of feed_frames in src/main.cpp (lines 59-149), after the
pacing prologue: readiness check (continue), open failure (break), read
failure (break), map failure (break), PTS/DTS/duration set from frame_counter
(lines 109-112), push (break on rejection), then frame_counter++ and
current_index++.  No keyframe filtering and no offset in this variant. -/
def feed_frames_main_step (F : Nat) (s : FeedState) (e : FrameEnv) : StepResult :=
  if ¬ e.ready then ⟨.notReady, s, none⟩
  else if ¬ e.openOk then ⟨.fatalOpen, s, none⟩
  else if ¬ e.readOk then ⟨.fatalRead, s, none⟩
  else if ¬ e.mapOk then ⟨.fatalMap, s, none⟩
  else if ¬ e.pushOk then ⟨.fatalPush, s, none⟩
  else
    ⟨.emitted, ⟨s.frame_counter + 1, s.current_index + 1⟩,
      some ⟨some (mainPts F s.frame_counter), some (mainPts F s.frame_counter),
            some (mainDuration F), none, e.fsize⟩⟩

/-- Counter increments per outcome, as performed by feed_frames_ts_step:
a skip advances only current_index, a successful emission advances both,
every other path leaves both unchanged. -/
def stepDelta : StepOutcome → Nat × Nat
  | .skipped => (0, 1)
  | .emitted => (1, 1)
  | _ => (0, 0)

/-- is_file_ready's sampling loop (both sources, part_000 lines 73-79):
walk the remaining (exists, size) observations; a disappearance yields false,
a size equal to the previous sample yields true, otherwise carry the new size;
exhausting the bounded attempts yields false. -/
def is_file_ready_loop (last : Nat) : List (Bool × Nat) → Bool
  | [] => false
  | ob :: rest =>
      if ¬ ob.1 then false
      else if ob.2 = last then true
      else is_file_ready_loop ob.2 rest

/-- is_file_ready (part_000 lines 70-81, identical in main.cpp lines 39-50):
the initial existence check and size sample, then the bounded sampling loop
(obs holds one (exists, size) observation per attempt; max_attempts = 5 and
delay_ms = 2 by default, the delay separating consecutive samples). -/
def is_file_ready (present0 : Bool) (size0 : Nat) (obs : List (Bool × Nat)) : Bool :=
  if ¬ present0 then false else is_file_ready_loop size0 obs

/-- The sequence of size samples seen by is_file_ready: sample 0 is the
initial file_size, sample k+1 is the size observed on attempt k. -/
def sizeSeq (size0 : Nat) (obs : List (Bool × Nat)) : Nat → Nat
  | 0 => size0
  | k + 1 => (obs.map Prod.snd).getD k 0

/-
Metadata correlation and logging: video_probe in src/unnamed/part_000
(lines 95-191).  The JSON-ish value fetched from the key-value store is
scanned textually by the lambda `extract`; fields keep their per-field
defaults (part_000 line 116) when there is no usable reply, and get the
extract result (sentinel value for a field that cannot be located) when a
string reply is present.
-/

/-- The sentinel string returned by the extract lambda on any failure. -/
def naS : String := "NA"

def quoteC : Char := '"'
def colonC : Char := ':'
def commaC : Char := ','
def rbraceC : Char := '\x7d'

/-- Does `pat` occur as a prefix of `hay`? -/
def startsWithL : List Char → List Char → Bool
  | [], _ => true
  | _ :: _, [] => false
  | p :: ps, h :: hs => p == h && startsWithL ps hs

/-- std::string::find: index of the first occurrence of `pat` in `hay`,
none when absent. -/
def strFind : List Char → List Char → Option Nat
  | [], pat => if pat.isEmpty then some 0 else none
  | c :: rest, pat =>
      if startsWithL pat (c :: rest) then some 0
      else (strFind rest pat).map (fun k => k + 1)

/-- std::string::find(char, pos): first index ≥ pos holding `c`. -/
def strFindCharFrom (hay : List Char) (c : Char) (pos : Nat) : Option Nat :=
  match (hay.drop pos).findIdx? (fun a => a == c) with
  | some k => some (pos + k)
  | none => none

/-- std::string::find_first_of(set, pos): first index ≥ pos holding a char of
`set`. -/
def strFindFirstOfFrom (hay : List Char) (set : List Char) (pos : Nat) : Option Nat :=
  match (hay.drop pos).findIdx? (fun a => set.contains a) with
  | some k => some (pos + k)
  | none => none

/-- The extract lambda of video_probe (part_000 lines 123-138): locate
`"key":`, step past it, then read either a quoted string value or a bare
value up to a comma or closing brace; every failure path yields "NA". -/
def extract (json key : List Char) : List Char :=
  match strFind json (quoteC :: (key ++ [quoteC, colonC])) with
  | none => naS.data
  | some pos0 =>
      let pos := pos0 + key.length + 3
      if json.length ≤ pos then naS.data
      else if json.getD pos colonC == quoteC then
        match strFindCharFrom json quoteC (pos + 1) with
        | none => naS.data
        | some e => (json.drop (pos + 1)).take (e - (pos + 1))
      else
        match strFindFirstOfFrom json [commaC, rbraceC] pos with
        | none => json.drop pos
        | some e => (json.drop pos).take (e - pos)

/-- String-level wrapper of the extract lambda. -/
def extractF (json key : String) : String := String.mk (extract json.data key.data)

/-- The per-frame metadata row assembled by video_probe, fields in the
declaration order of part_000 line 116. -/
structure MetadataRecord where
  ball : String
  frame_name : String
  innings : String
  isStart : String
  matchID : String
  over : String
  ptp_timestamp : String
  received_at : String
deriving DecidableEq

/-- The defaults of part_000 line 116, in force when no usable reply exists. -/
def defaultRecord : MetadataRecord :=
  ⟨"1", "NA", "1", "false", "123", "1", "NA", "NA"⟩

/-- The record every one of whose fields is the extract-failure sentinel. -/
def allNaRecord : MetadataRecord :=
  ⟨"NA", "NA", "NA", "NA", "NA", "NA", "NA", "NA"⟩

def keyBall : String := "ball"
def keyInnings : String := "innings"
def keyIsStart : String := "isStart"
def keyMatchID : String := "matchID"
def keyOver : String := "over"
def keyFrameName : String := "frame_name"
def keyPtp : String := "ptp_timestamp"
def keyReceivedAt : String := "received_at"

/-- The record video_probe holds after the lookup (part_000 lines 116-150):
`reply = some json` models a connected store returning a string reply for the
derived key; `reply = none` models a missing redis context, an absent key, or
a non-string reply — in those cases every field keeps its default. -/
def probeRecord (reply : Option String) : MetadataRecord :=
  match reply with
  | none => defaultRecord
  | some json =>
      { ball := extractF json keyBall
        frame_name := extractF json keyFrameName
        innings := extractF json keyInnings
        isStart := extractF json keyIsStart
        matchID := extractF json keyMatchID
        over := extractF json keyOver
        ptp_timestamp := extractF json keyPtp
        received_at := extractF json keyReceivedAt }

/-- The static previous-value state of video_probe used for change detection
(part_000 line 99), initialised to "0","0","0". -/
structure ProbeState where
  prev_ball : String
  prev_over : String
  prev_innings : String
deriving DecidableEq

def initProbeState : ProbeState := ⟨"0", "0", "0"⟩

/-- One row of the main CSV (frame index, PTS in 90 kHz ticks or the textual
NA written when the buffer carries no PTS, and the metadata fields). -/
structure MainRow where
  frameIndex : Nat
  rowPts90k : Option Nat
  record : MetadataRecord
deriving DecidableEq

/-- One row of the summary CSV (part_000 line 167). -/
structure SummaryRow where
  frameIndex : Nat
  rowPts90k : Nat
  over : String
  ball : String
  innings : String
  matchID : String
deriving DecidableEq

/-- GstPadProbeReturn values; video_probe returns GST_PAD_PROBE_OK on every
path. -/
inductive GstPadProbeReturn
  | ok
  | dropIt
  | removeIt
  | passIt
  | handledIt
deriving DecidableEq

/-- What one invocation of video_probe produced: the appended rows (none when
no row was written) and the updated previous-value state, plus the probe's
return value. -/
structure ProbeOutput where
  mainRow : Option MainRow
  summaryRow : Option SummaryRow
  state : ProbeState
  ret : GstPadProbeReturn
deriving DecidableEq

/-- video_probe (part_000 lines 95-191) for one buffer event.  `hasBuffer`
models the early returns for a non-buffer probe call or a null buffer;
`csvOpen` and `summaryOpen` model the is_open() guards; `pts` is the buffer's
PTS (none = GST_CLOCK_TIME_NONE); `reply` as in probeRecord.  A main row is
written whenever the csv is open (with a textual NA PTS column when the PTS
is absent); a summary row is written only when the PTS is present, the
summary csv is open, and the {ball, over, innings} triple differs from the
previous frame's; the previous-value state is updated unconditionally at the
end (lines 185-188). -/
def video_probe (hasBuffer csvOpen summaryOpen : Bool) (st : ProbeState)
    (frame_counter : Nat) (pts : Option Nat) (reply : Option String) : ProbeOutput :=
  if ¬ hasBuffer then ⟨none, none, st, .ok⟩
  else
    let r := probeRecord reply
    let changed : Bool :=
      (r.ball != st.prev_ball) || (r.over != st.prev_over) || (r.innings != st.prev_innings)
    match pts with
    | some p =>
        let t := pts90k p
        ⟨if csvOpen then some ⟨frame_counter, some t, r⟩ else none,
         if summaryOpen && changed then
           some ⟨frame_counter, t, r.over, r.ball, r.innings, r.matchID⟩
         else none,
         ⟨r.ball, r.over, r.innings⟩, .ok⟩
    | none =>
        ⟨if csvOpen then some ⟨frame_counter, none, r⟩ else none,
         none, ⟨r.ball, r.over, r.innings⟩, .ok⟩

/-
Pacing.  part_000 feed_frames lines 252-266 versus main.cpp feed_frames
lines 56-67.  Times are Nat instants on the steady clock, frame_duration in
the same unit.
-/

/-- The anchored target of part_000 line 254:
expected_time = start_time + frame_counter * frame_duration. -/
def expected_time (start frame_duration frame_counter : Nat) : Nat :=
  start + frame_counter * frame_duration

/-- What the pacing prologue decides: an instant to sleep until (none =
proceed immediately) and whether the behind-schedule warning was printed. -/
structure PacerAct where
  sleepUntil : Option Nat
  warned : Bool
deriving DecidableEq

/-- part_000 pacing (lines 252-266): sleep until the anchored expected time
when early; when late, warn iff the lateness exceeds one frame interval, and
proceed immediately either way (the frame is still processed — there is no
drop path). -/
def feed_pacer_ts (start frame_duration frame_counter now : Nat) : PacerAct :=
  let t := expected_time start frame_duration frame_counter
  if now < t then ⟨some t, false⟩
  else ⟨none, decide (frame_duration < now - t)⟩

/-- main.cpp pacing decision (lines 59-67) for the current value of
next_frame_time: sleep until it when early, otherwise proceed; no warning is
ever printed (the behind-schedule branch holds only a comment). -/
structure MainPacerAct where
  sleepUntil : Option Nat
  warned : Bool
  next : Nat
deriving DecidableEq

/-- main.cpp pacing (lines 59-67): after the sleep decision, next_frame_time
is advanced incrementally by one interval (line 67), on every loop iteration. -/
def feed_pacer_main (next_frame_time frame_interval now : Nat) : MainPacerAct :=
  if now < next_frame_time then ⟨some next_frame_time, false, next_frame_time + frame_interval⟩
  else ⟨none, false, next_frame_time + frame_interval⟩

/-- next_frame_time after m iterations of main.cpp's incremental
accumulation, starting from the anchor taken at thread start (line 57). -/
def mainNextAfter (start frame_interval : Nat) : Nat → Nat
  | 0 => start
  | m + 1 => mainNextAfter start frame_interval m + frame_interval

/- Concrete environments used to instantiate the step theorems. -/

/-- An iteration in which every filesystem and pipeline interaction succeeds
and the frame file is 40960 bytes (above the keyframe threshold). -/
def envAllOk : FrameEnv := ⟨true, true, 40960, true, true, true, true⟩

/-- A ready 100-byte frame file: below the keyframe threshold. -/
def envSmallFrame : FrameEnv := ⟨true, true, 100, true, true, true, true⟩

/-- A ready keyframe-sized file whose open fails after the readiness check. -/
def envOpenFail : FrameEnv := ⟨true, true, 40960, false, true, true, true⟩

/-- C1 (amended): in the src/main.cpp feeder, a fully successful iteration
pushes a buffer whose PTS is gst_util_uint64_scale(frame_counter, GST_SECOND,
F), whose DTS equals the PTS, and whose duration is
gst_util_uint64_scale(1, GST_SECOND, F), with both counters advancing by one;
with F = 300 frame 0 carries PTS 0 ns (0 ticks at 90 kHz) and frame 300
carries PTS 1,000,000,000 ns (90,000 ticks).  No wall-clock quantity enters
the computation. -/
theorem C1_main_feeder_pts (F : Nat) (s : FeedState) (e : FrameEnv)
    (hr : e.ready = true) (ho : e.openOk = true) (hd : e.readOk = true)
    (hm : e.mapOk = true) (hp : e.pushOk = true) :
    feed_frames_main_step F s e =
      ⟨.emitted, ⟨s.frame_counter + 1, s.current_index + 1⟩,
        some ⟨some (mainPts F s.frame_counter), some (mainPts F s.frame_counter),
              some (mainDuration F), none, e.fsize⟩⟩
    ∧ mainPts 300 0 = 0 ∧ pts90k (mainPts 300 0) = 0
    ∧ mainPts 300 300 = GST_SECOND ∧ pts90k (mainPts 300 300) = 90000 := by
  refine ⟨?_, by decide, by decide, by decide, by decide⟩
  simp [feed_frames_main_step, hr, ho, hd, hm, hp]

theorem C1_main_feeder_pts_witness :
    (envAllOk.ready = true ∧ envAllOk.openOk = true ∧ envAllOk.readOk = true ∧
     envAllOk.mapOk = true ∧ envAllOk.pushOk = true) ∧
    (feed_frames_main_step 300 ⟨0, 0⟩ envAllOk =
      ⟨.emitted, ⟨1, 1⟩,
        some ⟨some (mainPts 300 0), some (mainPts 300 0),
              some (mainDuration 300), none, envAllOk.fsize⟩⟩
     ∧ mainPts 300 0 = 0 ∧ pts90k (mainPts 300 0) = 0
     ∧ mainPts 300 300 = GST_SECOND ∧ pts90k (mainPts 300 300) = 90000) :=
  ⟨⟨rfl, rfl, rfl, rfl, rfl⟩,
   C1_main_feeder_pts 300 ⟨0, 0⟩ envAllOk rfl rfl rfl rfl rfl⟩

/-- C1 (counterexample): the part_000 feeder emits frames whose buffers carry
no PTS at all — a fully successful iteration pushes a buffer with pts = none
(GST_CLOCK_TIME_NONE; the timestamp is later supplied by the pipeline from
the wall clock via the appsrc do-timestamp property), not
frame_counter × 1e9 / F. -/
theorem C1_counterexample :
    (feed_frames_ts_step ⟨0, 0⟩ envAllOk).outcome = .emitted
    ∧ (feed_frames_ts_step ⟨0, 0⟩ envAllOk).pushed =
        some ⟨none, none, none, some 0, 40960⟩
    ∧ (none : Option Nat) ≠ some (mainPts 300 0) := by
  exact ⟨rfl, rfl, by decide⟩

/-- C2 (amended): the PTS difference between consecutive frames of the
main.cpp feeder is either the attached duration ⌊1e9/F⌋ or one nanosecond
more, and it equals the duration for every n exactly when F divides 1e9
(gst_util_uint64_scale truncates). -/
theorem C2_pts_delta (F n : Nat) (hF : 0 < F) :
    (mainPts F (n + 1) - mainPts F n = mainDuration F ∨
     mainPts F (n + 1) - mainPts F n = mainDuration F + 1) ∧
    (F ∣ GST_SECOND → mainPts F (n + 1) - mainPts F n = mainDuration F) := by
  have key : (n + 1) * GST_SECOND / F
      = n * GST_SECOND / F + (GST_SECOND / F +
        (if F ≤ n * GST_SECOND % F + GST_SECOND % F then 1 else 0)) := by
    rw [add_mul, one_mul, Nat.add_div hF, add_assoc]
  have hm : mainPts F (n + 1) - mainPts F n
      = GST_SECOND / F + (if F ≤ n * GST_SECOND % F + GST_SECOND % F then 1 else 0) := by
    simp only [mainPts, gst_util_uint64_scale]
    rw [key, Nat.add_sub_cancel_left]
  have hd : mainDuration F = GST_SECOND / F := by
    simp only [mainDuration, gst_util_uint64_scale, one_mul]
  constructor
  · rw [hm, hd]
    by_cases h : F ≤ n * GST_SECOND % F + GST_SECOND % F
    · right; rw [if_pos h]
    · left
      rw [if_neg h]
      rfl
  · intro hdvd
    have h2 : GST_SECOND % F = 0 := Nat.dvd_iff_mod_eq_zero.mp hdvd
    have h3 : n * GST_SECOND % F = 0 := Nat.dvd_iff_mod_eq_zero.mp (hdvd.mul_left n)
    rw [hm, hd, h2, h3]
    have hc : ¬ F ≤ 0 + 0 := by omega
    rw [if_neg hc]
    rfl

theorem C2_pts_delta_witness :
    0 < 250 ∧
    ((mainPts 250 1 - mainPts 250 0 = mainDuration 250 ∨
      mainPts 250 1 - mainPts 250 0 = mainDuration 250 + 1) ∧
     (250 ∣ GST_SECOND → mainPts 250 1 - mainPts 250 0 = mainDuration 250)) :=
  ⟨by decide, C2_pts_delta 250 0 (by decide)⟩

/-- C2 (counterexample): at the configured rate F = 300 the difference
between the PTS of frame 3 and frame 2 is 3,333,334 ns while the attached
duration is 3,333,333 ns — not equal, because 300 does not divide 1e9 and
gst_util_uint64_scale truncates. -/
theorem C2_counterexample :
    mainPts 300 3 - mainPts 300 2 = 3333334 ∧ mainDuration 300 = 3333333 ∧
    mainPts 300 3 - mainPts 300 2 ≠ mainDuration 300 := by
  exact ⟨by decide, by decide, by decide⟩

/-- C3: in the part_000 feeder (the keyframe-only variant), a ready file
classified not-a-keyframe is skipped: the iteration ends with outcome
skipped, current_index advanced by one, frame_counter unchanged, and no
buffer pushed (hence no probe invocation, no metadata lookup and no log row
for that index, since the probe runs only on pushed buffers); and for an
existing file the classification holds exactly when the size reaches
IFRAME_MIN_SIZE. -/
theorem C3_keyframe_skip (s : FeedState) (e : FrameEnv)
    (hr : e.ready = true) (hk : is_iframe e.present e.fsize = false) :
    feed_frames_ts_step s e =
      ⟨.skipped, ⟨s.frame_counter, s.current_index + 1⟩, none⟩
    ∧ (e.present = true →
        (is_iframe e.present e.fsize = true ↔ IFRAME_MIN_SIZE ≤ e.fsize)) := by
  constructor
  · simp [feed_frames_ts_step, hr, hk]
  · intro hp
    simp [is_iframe, hp]

theorem C3_keyframe_skip_witness :
    (envSmallFrame.ready = true ∧ is_iframe envSmallFrame.present envSmallFrame.fsize = false) ∧
    (feed_frames_ts_step ⟨4, 9⟩ envSmallFrame = ⟨.skipped, ⟨4, 10⟩, none⟩
     ∧ (envSmallFrame.present = true →
         (is_iframe envSmallFrame.present envSmallFrame.fsize = true ↔
          IFRAME_MIN_SIZE ≤ envSmallFrame.fsize))) :=
  ⟨⟨rfl, by decide⟩, C3_keyframe_skip ⟨4, 9⟩ envSmallFrame rfl (by decide)⟩

/-- C5 (amended): an open failure after a positive readiness check is fatal
only in the main.cpp feeder (outcome fatalOpen, the loop breaks); the
part_000 feeder instead retries the same index — outcome retryOpen, both
counters unchanged, and the loop continues. -/
theorem C5_open_failure_policy (F : Nat) (s : FeedState) (e : FrameEnv)
    (hr : e.ready = true) (hk : is_iframe e.present e.fsize = true)
    (ho : e.openOk = false) :
    feed_frames_main_step F s e = ⟨.fatalOpen, s, none⟩ ∧
    outcomeContinues .fatalOpen = false ∧
    feed_frames_ts_step s e = ⟨.retryOpen, s, none⟩ ∧
    outcomeContinues .retryOpen = true := by
  refine ⟨?_, rfl, ?_, rfl⟩
  · simp [feed_frames_main_step, hr, ho]
  · simp [feed_frames_ts_step, hr, hk, ho]

theorem C5_open_failure_policy_witness :
    (envOpenFail.ready = true ∧ is_iframe envOpenFail.present envOpenFail.fsize = true ∧
     envOpenFail.openOk = false) ∧
    (feed_frames_main_step 300 ⟨1, 2⟩ envOpenFail = ⟨.fatalOpen, ⟨1, 2⟩, none⟩ ∧
     outcomeContinues .fatalOpen = false ∧
     feed_frames_ts_step ⟨1, 2⟩ envOpenFail = ⟨.retryOpen, ⟨1, 2⟩, none⟩ ∧
     outcomeContinues .retryOpen = true) :=
  ⟨⟨rfl, by decide, rfl⟩,
   C5_open_failure_policy 300 ⟨1, 2⟩ envOpenFail rfl (by decide) rfl⟩

/-- C5 (counterexample): in the part_000 feeder an open failure on a ready,
keyframe-sized file yields outcome retryOpen with both counters unchanged,
and the loop continues (retrying the same index) instead of terminating. -/
theorem C5_counterexample :
    (feed_frames_ts_step ⟨7, 9⟩ envOpenFail).outcome = .retryOpen ∧
    outcomeContinues (feed_frames_ts_step ⟨7, 9⟩ envOpenFail).outcome = true ∧
    (feed_frames_ts_step ⟨7, 9⟩ envOpenFail).state = ⟨7, 9⟩ := by
  exact ⟨rfl, rfl, rfl⟩

/-- C9: in the part_000 feeder loop, every iteration changes the counters by
exactly the per-outcome delta — (0,0) on the not-ready and retry paths and on
the fatal paths, (0,1) on a non-keyframe skip, (1,1) on a successful
emission — so frame_counter and current_index never decrease. -/
theorem C9_counters_monotone (s : FeedState) (e : FrameEnv) :
    s.frame_counter ≤ (feed_frames_ts_step s e).state.frame_counter ∧
    s.current_index ≤ (feed_frames_ts_step s e).state.current_index ∧
    (feed_frames_ts_step s e).state =
      ⟨s.frame_counter + (stepDelta (feed_frames_ts_step s e).outcome).1,
       s.current_index + (stepDelta (feed_frames_ts_step s e).outcome).2⟩ := by
  have h : (feed_frames_ts_step s e).state =
      ⟨s.frame_counter + (stepDelta (feed_frames_ts_step s e).outcome).1,
       s.current_index + (stepDelta (feed_frames_ts_step s e).outcome).2⟩ := by
    unfold feed_frames_ts_step
    repeat' split
    all_goals rfl
  refine ⟨?_, ?_, h⟩ <;> rw [h] <;> exact Nat.le_add_right _ _

/-- C8 (amended): the part_000 pacer computes the target for frame n from the
fixed anchor as start + n × frame_duration; when early it sleeps until that
target without warning, and when now exceeds the target by more than one
frame interval it warns and proceeds immediately (sleepUntil = none — there
is no drop path, the same frame is still processed).  The main.cpp pacer
never warns, and its incrementally accumulated next_frame_time after m
iterations equals start + m × interval. -/
theorem C8_anchored_pacing (start d n now : Nat) :
    expected_time start d n = start + n * d ∧
    (now < start + n * d → feed_pacer_ts start d n now = ⟨some (start + n * d), false⟩) ∧
    (start + n * d + d < now → feed_pacer_ts start d n now = ⟨none, true⟩) ∧
    (∀ a b c : Nat, (feed_pacer_main a b c).warned = false) ∧
    (∀ m, mainNextAfter start d m = start + m * d) := by
  refine ⟨rfl, ?_, ?_, ?_, ?_⟩
  · intro h
    unfold feed_pacer_ts expected_time
    rw [if_pos h]
  · intro h
    unfold feed_pacer_ts expected_time
    rw [if_neg (by omega)]
    have hlt : d < now - (start + n * d) := by omega
    rw [decide_eq_true hlt]
  · intro a b c
    unfold feed_pacer_main
    split <;> rfl
  · intro m
    induction m with
    | zero => simp [mainNextAfter]
    | succ m ih =>
        unfold mainNextAfter
        rw [ih]
        ring

theorem C8_anchored_pacing_witness :
    (5 < 0 + 2 * 10 ∧ feed_pacer_ts 0 10 2 5 = ⟨some (0 + 2 * 10), false⟩) ∧
    (0 + 2 * 10 + 10 < 100 ∧ feed_pacer_ts 0 10 2 100 = ⟨none, true⟩) :=
  ⟨⟨by decide, (C8_anchored_pacing 0 10 2 5).2.1 (by decide)⟩,
   ⟨by decide, (C8_anchored_pacing 0 10 2 100).2.2.1 (by decide)⟩⟩

/-- C8 (counterexample): the main.cpp pacer (feed_frames lines 59-67) prints
no behind-schedule warning even when now exceeds next_frame_time by far more
than one frame interval — it proceeds silently, refuting the claim for that
feeder (its target is also accumulated incrementally, line 67). -/
theorem C8_counterexample :
    (feed_pacer_main 100 10 200).warned = false ∧
    (feed_pacer_main 100 10 200).sleepUntil = none ∧
    100 + 10 < 200 := by
  exact ⟨rfl, rfl, by decide⟩

/-- Shifting the sample sequence across a cons: sample k of the tail loop
(started at the head's size) is sample k+1 of the whole probe. -/
theorem sizeSeq_cons (s0 : Nat) (ob : Bool × Nat) (rest : List (Bool × Nat)) (k : Nat) :
    sizeSeq ob.2 rest k = sizeSeq s0 (ob :: rest) (k + 1) := by
  cases k with
  | zero => rfl
  | succ k => rfl

/-- Soundness of the sampling loop: a true result exhibits an attempt whose
size equals the previous sample's size. -/
theorem ready_loop_equal_pair (s0 : Nat) (obs : List (Bool × Nat))
    (h : is_file_ready_loop s0 obs = true) :
    ∃ k, k < obs.length ∧ sizeSeq s0 obs (k + 1) = sizeSeq s0 obs k := by
  induction obs generalizing s0 with
  | nil => simp [is_file_ready_loop] at h
  | cons ob rest ih =>
      unfold is_file_ready_loop at h
      by_cases hx : ob.1 = true
      · rw [if_neg (by simp [hx])] at h
        by_cases he : ob.2 = s0
        · exact ⟨0, Nat.succ_pos _, he⟩
        · rw [if_neg he] at h
          obtain ⟨k, hk, heq⟩ := ih ob.2 h
          refine ⟨k + 1, Nat.succ_lt_succ hk, ?_⟩
          rw [← sizeSeq_cons s0 ob rest (k + 1), ← sizeSeq_cons s0 ob rest k]
          exact heq
      · rw [if_pos (by simp [Bool.not_eq_true] at hx; simp [hx])] at h
        exact absurd h (by simp)

/-- If every consecutive pair of samples differs, the loop reports not-ready. -/
theorem ready_loop_all_change (s0 : Nat) (obs : List (Bool × Nat))
    (hd : ∀ k, k < obs.length → sizeSeq s0 obs (k + 1) ≠ sizeSeq s0 obs k) :
    is_file_ready_loop s0 obs = false := by
  cases hb : is_file_ready_loop s0 obs with
  | false => rfl
  | true =>
      obtain ⟨k, hk, heq⟩ := ready_loop_equal_pair s0 obs hb
      exact absurd heq (hd k hk)

/-- If the file disappears on attempt k before any size stabilised, the loop
reports not-ready. -/
theorem ready_loop_gone (s0 : Nat) (obs : List (Bool × Nat)) (k : Nat)
    (hk : k < obs.length) (hg : (obs.getD k (true, 0)).1 = false)
    (hd : ∀ j, j < k → sizeSeq s0 obs (j + 1) ≠ sizeSeq s0 obs j) :
    is_file_ready_loop s0 obs = false := by
  induction obs generalizing s0 k with
  | nil => rfl
  | cons ob rest ih =>
      unfold is_file_ready_loop
      by_cases hx : ob.1 = true
      · rw [if_neg (by simp [hx])]
        cases k with
        | zero =>
            have : ob.1 = false := hg
            rw [hx] at this
            exact absurd this (by simp)
        | succ k =>
            have he : ob.2 ≠ s0 := by
              have := hd 0 (Nat.succ_pos _)
              exact this
            rw [if_neg he]
            refine ih ob.2 k (Nat.lt_of_succ_lt_succ hk) hg ?_
            intro j hj
            rw [sizeSeq_cons s0 ob rest (j + 1), sizeSeq_cons s0 ob rest j]
            exact hd (j + 1) (Nat.succ_lt_succ hj)
      · rw [if_pos (by simp [Bool.not_eq_true] at hx; simp [hx])]

/-- C4: the readiness probe reports ready only when some attempt observes a
size equal to the previous sample (two consecutive samples separated by the
probe delay); a missing file at the initial check means not-ready, a
disappearance on any attempt before stabilisation means not-ready, and when
the size changes at every consecutive pair across all bounded attempts the
probe reports not-ready.  (The probe is a total Bool-valued function: it
never signals an error.) -/
theorem C4_readiness (present0 : Bool) (size0 : Nat) (obs : List (Bool × Nat)) :
    (present0 = false → is_file_ready present0 size0 obs = false) ∧
    (is_file_ready present0 size0 obs = true →
      ∃ k, k < obs.length ∧ sizeSeq size0 obs (k + 1) = sizeSeq size0 obs k) ∧
    ((∀ k, k < obs.length → sizeSeq size0 obs (k + 1) ≠ sizeSeq size0 obs k) →
      is_file_ready present0 size0 obs = false) ∧
    (∀ k, k < obs.length → (obs.getD k (true, 0)).1 = false →
      (∀ j, j < k → sizeSeq size0 obs (j + 1) ≠ sizeSeq size0 obs j) →
      is_file_ready present0 size0 obs = false) := by
  cases present0 with
  | false =>
      refine ⟨fun _ => rfl, fun h => absurd h (by simp [is_file_ready]),
              fun _ => by simp [is_file_ready], fun k _ _ _ => by simp [is_file_ready]⟩
  | true =>
      have he : is_file_ready true size0 obs = is_file_ready_loop size0 obs := by
        simp [is_file_ready]
      refine ⟨by simp, ?_, ?_, ?_⟩
      · intro h
        exact ready_loop_equal_pair size0 obs (by rwa [he] at h)
      · intro hd
        rw [he]
        exact ready_loop_all_change size0 obs hd
      · intro k hk hg hd
        rw [he]
        exact ready_loop_gone size0 obs k hk hg hd

/-- Five stable samples after an initial differing one: ready. -/
def obsStable : List (Bool × Nat) := [(true, 12), (true, 12), (true, 12), (true, 12), (true, 12)]

/-- Five strictly growing samples: never stable within the attempt window. -/
def obsGrowing : List (Bool × Nat) := [(true, 1), (true, 2), (true, 3), (true, 4), (true, 5)]

/-- The file disappears on the first attempt. -/
def obsGone : List (Bool × Nat) := [(false, 0), (true, 3), (true, 3), (true, 3), (true, 3)]

theorem C4_readiness_witness :
    (is_file_ready true 10 obsStable = true ∧
     ∃ k, k < obsStable.length ∧ sizeSeq 10 obsStable (k + 1) = sizeSeq 10 obsStable k) ∧
    ((∀ k, k < obsGrowing.length → sizeSeq 0 obsGrowing (k + 1) ≠ sizeSeq 0 obsGrowing k) ∧
     is_file_ready true 0 obsGrowing = false) ∧
    (is_file_ready false 7 obsStable = false) ∧
    (is_file_ready true 9 obsGone = false) :=
  ⟨⟨by decide, (C4_readiness true 10 obsStable).2.1 (by decide)⟩,
   ⟨by decide, (C4_readiness true 0 obsGrowing).2.2.1 (by decide)⟩,
   (C4_readiness false 7 obsStable).1 rfl,
   (C4_readiness true 9 obsGone).2.2.2 0 (by decide) (by decide) (by decide)⟩

/-- A pattern beginning with a character absent from the haystack never
occurs in it. -/
theorem strFind_none_of_head_notin (hay : List Char) (q : Char) (tl : List Char)
    (h : ∀ c ∈ hay, c ≠ q) : strFind hay (q :: tl) = none := by
  induction hay with
  | nil => rfl
  | cons c rest ih =>
      have hqc : (q == c) = false := by
        have hc : c ≠ q := h c (by simp)
        exact beq_eq_false_iff_ne.mpr (fun e => hc e.symm)
      have h1 : startsWithL (q :: tl) (c :: rest) = false := by
        show (q == c && startsWithL tl rest) = false
        rw [hqc, Bool.false_and]
      unfold strFind
      rw [h1]
      simp only [Bool.false_eq_true, if_false]
      rw [ih (fun a ha => h a (List.mem_cons_of_mem _ ha))]
      rfl

/-- On a reply containing no double quote, every field extraction fails and
yields the sentinel. -/
theorem extractF_no_quote (j key : String) (hj : ∀ c ∈ j.data, c ≠ quoteC) :
    extractF j key = naS := by
  unfold extractF extract
  rw [strFind_none_of_head_notin j.data quoteC _ hj]

/-- The Bool change flag computed by video_probe equals the summary row's
presence (for a buffer with a PTS and an open summary csv). -/
theorem summary_row_iff (st : ProbeState) (fc p : Nat) (reply : Option String) :
    ((video_probe true true true st fc (some p) reply).summaryRow.isSome = true ↔
      ((probeRecord reply).ball ≠ st.prev_ball ∨ (probeRecord reply).over ≠ st.prev_over ∨
       (probeRecord reply).innings ≠ st.prev_innings)) := by
  by_cases h1 : (probeRecord reply).ball = st.prev_ball <;>
    by_cases h2 : (probeRecord reply).over = st.prev_over <;>
      by_cases h3 : (probeRecord reply).innings = st.prev_innings <;>
        simp [video_probe, h1, h2, h3]

/-- C6 (amended): when the store is unreachable, the key absent, or the
reply not a string, the record keeps the per-field defaults
("1","NA","1","false","123","1","NA","NA"); when a string reply is present
but contains none of the quoted field labels (here: no double quote at all),
every field is the extraction sentinel "NA".  In all cases the probe still
writes the per-frame CSV row (whenever the csv is open) and returns
GST_PAD_PROBE_OK — the condition is never fatal, and no retry path exists. -/
theorem C6_metadata_failure_policy (j : String) (hj : ∀ c ∈ j.data, c ≠ quoteC)
    (st : ProbeState) (fc : Nat) (pts : Option Nat) (reply : Option String) :
    probeRecord none = defaultRecord ∧
    probeRecord (some j) = allNaRecord ∧
    (video_probe true true true st fc pts reply).mainRow.isSome = true ∧
    (video_probe true true true st fc pts reply).ret = .ok := by
  refine ⟨rfl, ?_, ?_, ?_⟩
  · show ({ ball := extractF j keyBall, frame_name := extractF j keyFrameName,
            innings := extractF j keyInnings, isStart := extractF j keyIsStart,
            matchID := extractF j keyMatchID, over := extractF j keyOver,
            ptp_timestamp := extractF j keyPtp,
            received_at := extractF j keyReceivedAt } : MetadataRecord) = allNaRecord
    rw [extractF_no_quote j keyBall hj, extractF_no_quote j keyFrameName hj,
        extractF_no_quote j keyInnings hj, extractF_no_quote j keyIsStart hj,
        extractF_no_quote j keyMatchID hj, extractF_no_quote j keyOver hj,
        extractF_no_quote j keyPtp hj, extractF_no_quote j keyReceivedAt hj]
    rfl
  · cases pts <;> simp [video_probe]
  · cases pts <;> rfl

/-- A reply holding no quoted labels at all. -/
def jMalformed : String := "xyz"

theorem C6_metadata_failure_policy_witness :
    (∀ c ∈ jMalformed.data, c ≠ quoteC) ∧
    (probeRecord none = defaultRecord ∧
     probeRecord (some jMalformed) = allNaRecord ∧
     (video_probe true true true initProbeState 0 (some 0) none).mainRow.isSome = true ∧
     (video_probe true true true initProbeState 0 (some 0) none).ret = .ok) :=
  ⟨by decide,
   C6_metadata_failure_policy jMalformed (by decide) initProbeState 0 (some 0) none⟩

/-- C6 (counterexample): the three failure modes do not yield one common
all-sentinel record — a missing/absent/non-string reply leaves ball at its
default "1", while a malformed string reply yields ball = "NA", so the two
records differ. -/
theorem C6_counterexample :
    (probeRecord none).ball = "1" ∧ (probeRecord (some jMalformed)).ball = "NA" ∧
    probeRecord none ≠ probeRecord (some jMalformed) := by
  exact ⟨rfl, by decide, by decide⟩

/-- The {ball, over, innings} triple retained for change detection. -/
def tripleOf (r : MetadataRecord) : ProbeState := ⟨r.ball, r.over, r.innings⟩

/-- C7: for a buffer carrying a PTS, with both logs open, a summary row is
appended exactly when the current frame's {ball, over, innings} triple
differs from the previous processed frame's, and the retained previous
triple becomes the current one (so consecutive processed frames are compared
pairwise). -/
theorem C7_summary_change (st : ProbeState) (fc p : Nat) (reply : Option String) :
    ((video_probe true true true st fc (some p) reply).summaryRow.isSome = true ↔
      ((probeRecord reply).ball ≠ st.prev_ball ∨ (probeRecord reply).over ≠ st.prev_over ∨
       (probeRecord reply).innings ≠ st.prev_innings)) ∧
    (video_probe true true true st fc (some p) reply).state = tripleOf (probeRecord reply) := by
  exact ⟨summary_row_iff st fc p reply, rfl⟩

/-- C10 (amended): the first processed frame (previous triple initialised to
"0","0","0") yields a summary row exactly when its own triple is not
("0","0","0"); in particular when no metadata is found the defaults
("1","1","1") do differ, so a row is always produced in that case. -/
theorem C10_first_frame_summary (p : Nat) (reply : Option String) :
    ((video_probe true true true initProbeState 0 (some p) reply).summaryRow.isSome = true ↔
      ¬ ((probeRecord reply).ball = "0" ∧ (probeRecord reply).over = "0" ∧
         (probeRecord reply).innings = "0")) ∧
    (video_probe true true true initProbeState 0 (some p) none).summaryRow.isSome = true := by
  constructor
  · rw [summary_row_iff initProbeState 0 p reply]
    show ((probeRecord reply).ball ≠ "0" ∨ (probeRecord reply).over ≠ "0" ∨
          (probeRecord reply).innings ≠ "0") ↔ _
    tauto
  · exact (summary_row_iff initProbeState 0 p none).mpr (Or.inl (by decide))

/-- A well-formed reply whose ball, over and innings are all "0". -/
def jZeros : String := "\x7b\"ball\":\"0\",\"over\":\"0\",\"innings\":\"0\"\x7d"

/-- C10 (counterexample): a first frame whose metadata yields
ball = over = innings = "0" — equal to the initial previous values — produces
no summary row, refuting "always produces a summary-log row regardless of
the metadata returned". -/
theorem C10_counterexample :
    (probeRecord (some jZeros)).ball = "0" ∧
    (probeRecord (some jZeros)).over = "0" ∧
    (probeRecord (some jZeros)).innings = "0" ∧
    (video_probe true true true initProbeState 0 (some 0) (some jZeros)).summaryRow = none := by
  exact ⟨by decide, by decide, by decide, by decide⟩
